import Mathlib

/-!
Shallow embedding of the deepalert correlation/deduplication store.

The embedded code is the DynamoDB-backed `DataStoreService` (functions
`TakeReport`, `SaveAlertCache`, `FetchAlertCache`, `FetchReportSection`,
`PutAttributeCache`) and the Step Functions helper (`Exec`,
`extractSFnRegion`).  The DynamoDB table is modelled per record family:
a function from (partition key, sort key) to an optional record for the
conditionally written families (alert entries, attribute cache), and a
list of records for the append-only families (alert cache, report
sections).  A conditional put `Put(..).If("(attribute_not_exists(pk) AND
attribute_not_exists(sk)) OR expires_at < ?", t)` succeeds exactly when
the key is absent or the stored `expires_at` is strictly below `t`;
otherwise it changes nothing and fails the conditional check.  Times are
integers, report identities and keys are strings.
-/

namespace DeepAlert

/-- Time instants, as in Go `time.Time` (abstract integral clock). -/
abbrev Time := Int

/-- The constant `time.Hour * 3`, the TTL used by `TakeReport`, `SaveAlertCache`
(`timeToLive`) and `PutAttributeCache`, in seconds. -/
def ttl3h : Time := 3 * 3600

/-- Report status (`deepalert.StatusNew` / `deepalert.StatusMore`). -/
inductive ReportStatus where
  | new
  | more
deriving DecidableEq, Repr

/-- Modelled from the spec: the `deepalert.Attribute` struct is not under
src/; per the spec an attribute is a key/type/value/observation-time
tuple (`Timestamp` is a nullable pointer in the source). -/
structure Attribute where
  key : String
  type : String
  value : String
  timestamp : Option Time
deriving DecidableEq, Repr

/-- Modelled from the spec: `deepalert.Attribute.Hash` is not under src/;
per the spec the attribute hash is computed deterministically from the
attribute's key, type and value only — the observation time is excluded
so that the same attribute observed at different times still dedups.
The hash is modelled as the (key, type, value) triple itself. -/
def Attribute.hash (a : Attribute) : String × String × String :=
  (a.key, a.type, a.value)

/-- Modelled from the spec: the `deepalert.Alert` struct is not under
src/; per the spec an alert carries an event timestamp and identity
fields (detector / rule name / alert key). -/
structure Alert where
  detector : String
  ruleName : String
  alertKey : String
  timestamp : Time
deriving DecidableEq, Repr

/-- Modelled from the spec: `deepalert.Alert.AlertID` is not under src/;
per the source comment it is generated from `Alert.Detector`,
`Alert.RuleName` and `Alert.AlertKey` — a stable deterministic key. -/
def Alert.alertID (a : Alert) : String :=
  a.detector ++ "/" ++ a.ruleName ++ "/" ++ a.alertKey

/-- The `deepalert.Report` as returned by `TakeReport` (the fields it sets). -/
structure Report where
  id : String
  status : ReportStatus
  createdAt : Time
deriving DecidableEq, Repr

/-- The `alertEntry` record stored under `alertmap/{AlertID}`: embedded
`recordBase` fields plus the allocated report identity. -/
structure AlertEntryRec where
  expiresAt : Time
  createdAt : Time
  reportID : String
deriving DecidableEq, Repr

/-- The slice of the DynamoDB table holding `alertEntry` records, keyed
by (partition key, sort key). -/
def CorrStore : Type := String × String → Option AlertEntryRec

/-- The empty table: no record under any key. -/
def emptyCorr : CorrStore := fun _ => none

/-- Embeds `dynamo.Table.Put` writing an `alertEntry` record: replaces whatever
is stored under the key. -/
def corrPut (s : CorrStore) (k : String × String) (e : AlertEntryRec) : CorrStore :=
  fun q => if q = k then some e else s q

/-- Embeds `DataStoreService.TakeReport`.  `now` is `time.Now().UTC()` at the
call; `freshID` is the value of `NewReportID()` (a fresh UUID).  The
conditional put succeeds iff no record exists at
(`alertmap/{alertID}`, `Fixed`) or the stored `expires_at` is strictly
below the alert's event timestamp; the stored entry expires at
`timestamp + 3h`.  On a conditional-check failure the existing entry is
read back and its report identity and `created_at` are returned with
status MORE; the store is unchanged and the candidate identity is
discarded. -/
def takeReport (s : CorrStore) (alert : Alert) (now : Time) (freshID : String) :
    Report × CorrStore :=
  let pk := "alertmap/" ++ alert.alertID
  let sk := "Fixed"
  let ts := alert.timestamp
  let cache : AlertEntryRec :=
    { expiresAt := ts + ttl3h, createdAt := now, reportID := freshID }
  match s (pk, sk) with
  | none =>
      ({ id := freshID, status := .new, createdAt := now }, corrPut s (pk, sk) cache)
  | some existed =>
      if existed.expiresAt < ts then
        ({ id := freshID, status := .new, createdAt := now }, corrPut s (pk, sk) cache)
      else
        ({ id := existed.reportID, status := .more, createdAt := existed.createdAt }, s)

/-- A sequence of `TakeReport` calls run in some serialization order:
each element carries the alert, the wall-clock time of the call and the
fresh UUID generated for it.  Returns the results in order and the final
store.  Each call's conditional put is atomic in DynamoDB, so any
concurrent execution is some such serialization. -/
def runTakeReports (s : CorrStore) : List (Alert × Time × String) → List Report × CorrStore
  | [] => ([], s)
  | (a, now, fid) :: rest =>
      let out := takeReport s a now fid
      let outs := runTakeReports out.2 rest
      (out.1 :: outs.1, outs.2)

/-- An opaque storage failure other than a conditional-check failure
(`awserr` with a code other than `ConditionalCheckFailedException`). -/
structure StorageFault where
  code : Nat
deriving DecidableEq, Repr

/-- The `attributeCache` record stored under
(`attribute/{reportID}`, attribute hash). -/
structure AttributeCacheRec where
  expiresAt : Time
  timestamp : Time
  attrKey : String
  attrType : String
  attrValue : String
deriving DecidableEq, Repr

/-- The slice of the DynamoDB table holding `attributeCache` records,
keyed by (partition key, sort key); the sort key is the attribute hash. -/
def AttrStore : Type := String × (String × String × String) → Option AttributeCacheRec

/-- The empty attribute-cache table. -/
def emptyAttr : AttrStore := fun _ => none

/-- Embeds `dynamo.Table.Put` writing an `attributeCache` record. -/
def attrPut (s : AttrStore) (k : String × (String × String × String))
    (e : AttributeCacheRec) : AttrStore :=
  fun q => if q = k then some e else s q

/-- Embeds `DataStoreService.PutAttributeCache`.  `now` is `time.Now().UTC()`;
`fault` injects a storage failure of the underlying put (a `none` fault
means the round-trip reached DynamoDB and the conditional predicate was
evaluated).  The stored `Timestamp` is the attribute's observation time,
or `now` when it is nil; the stored `expires_at` is `now + 3h`.  The
conditional put succeeds iff the key is absent or the stored
`expires_at` is strictly below `now`.  Returns the Go pair
(admitted, error): `(true, nil)` on success, `(false, nil)` on a
conditional-check failure, `(false, err)` on any other failure. -/
def putAttributeCache (s : AttrStore) (reportID : String) (attr : Attribute)
    (now : Time) (fault : Option StorageFault) :
    (Bool × Option StorageFault) × AttrStore :=
  let ts : Time :=
    match attr.timestamp with
    | some t => t
    | none => now
  let pk := "attribute/" ++ reportID
  let sk := attr.hash
  let cache : AttributeCacheRec :=
    { expiresAt := now + ttl3h, timestamp := ts,
      attrKey := attr.key, attrType := attr.type, attrValue := attr.value }
  match fault with
  | some e => ((false, some e), s)
  | none =>
      match s (pk, sk) with
      | none => ((true, none), attrPut s (pk, sk) cache)
      | some existed =>
          if existed.expiresAt < now then
            ((true, none), attrPut s (pk, sk) cache)
          else
            ((false, none), s)

/-- A sequence of fault-free `PutAttributeCache` calls for one report,
run in some serialization order: each element carries the attribute and
the wall-clock time of the call.  Returns the (admitted, error) results
in order and the final store. -/
def runPutAttributeCaches (s : AttrStore) (reportID : String) :
    List (Attribute × Time) → List (Bool × Option StorageFault) × AttrStore
  | [] => ([], s)
  | (a, now) :: rest =>
      let out := putAttributeCache s reportID a now none
      let outs := runPutAttributeCaches out.2 reportID rest
      (out.1 :: outs.1, outs.2)

/-- A JSON payload produced by `encoding/json`: either the faithful
encoding of a value of type `α` (for the structs stored here,
`json.Marshal` cannot fail and `json.Unmarshal` inverts it) or a corrupt
payload that does not decode. -/
inductive JsonVal (α : Type) where
  | enc (a : α)
  | corrupt (n : Nat)
deriving DecidableEq, Repr

/-- Embeds `json.Marshal` for a storable struct. -/
def jsonMarshal {α : Type} (a : α) : JsonVal α := .enc a

/-- Embeds `json.Unmarshal`: it fails exactly on corrupt payloads. -/
def jsonUnmarshal {α : Type} : JsonVal α → Option α
  | .enc a => some a
  | .corrupt _ => none

/-- The `alertCache` record stored under
(`alert/{reportID}`, `cache/{random}`). -/
structure AlertCacheRec where
  pk : String
  sk : String
  alertData : JsonVal Alert
  expiresAt : Time
deriving DecidableEq, Repr

/-- The slice of the DynamoDB table holding `alertCache` records, as the
list of stored records.  A put replaces any record with the same key. -/
def alertCachePut (s : List AlertCacheRec) (r : AlertCacheRec) : List AlertCacheRec :=
  r :: s.filter (fun q => !(q.pk == r.pk && q.sk == r.sk))

/-- Embeds `toAlertCacheKey`: partition key `alert/{reportID}`, sort key
`cache/` followed by a fresh UUID (passed in as `uuid`). -/
def toAlertCacheKey (reportID uuid : String) : String × String :=
  ("alert/" ++ reportID, "cache/" ++ uuid)

/-- Embeds `DataStoreService.SaveAlertCache`: marshal the alert and write it
unconditionally (no predicate) under a fresh sort key; the record
expires at `alert.Timestamp + timeToLive` with `timeToLive = 3h`. -/
def saveAlertCache (s : List AlertCacheRec) (reportID : String) (alert : Alert)
    (uuid : String) : List AlertCacheRec :=
  let key := toAlertCacheKey reportID uuid
  alertCachePut s
    { pk := key.1, sk := key.2, alertData := jsonMarshal alert,
      expiresAt := alert.timestamp + ttl3h }

/-- A sequence of `SaveAlertCache` calls for one report, each with the
fresh UUID generated for it. -/
def saveAlertCaches (s : List AlertCacheRec) (reportID : String) :
    List (Alert × String) → List AlertCacheRec
  | [] => s
  | (a, u) :: rest => saveAlertCaches (saveAlertCache s reportID a u) reportID rest

/-- The decode loop shared by `FetchAlertCache` and `FetchReportSection`:
unmarshal each payload in order; the first payload that fails to
unmarshal aborts the whole fetch with an error identifying it, and no
partial collection is returned. -/
def decodeList {α : Type} : List (JsonVal α) → Except (JsonVal α) (List α)
  | [] => .ok []
  | d :: rest =>
      match jsonUnmarshal d with
      | none => .error d
      | some a =>
          match decodeList rest with
          | .error e => .error e
          | .ok l => .ok (a :: l)

/-- Embeds `DataStoreService.FetchAlertCache`: read every record under
partition `alert/{reportID}` and unmarshal each; an empty partition
yields `no error` with an empty collection. -/
def fetchAlertCache (s : List AlertCacheRec) (reportID : String) :
    Except (JsonVal Alert) (List Alert) :=
  let pk := (toAlertCacheKey reportID "").1
  decodeList ((s.filter (fun r => r.pk == pk)).map (·.alertData))

/-- The `deepalert.ReportSection` struct (the fields relevant to storage keys). -/
structure ReportSection where
  reportID : String
  attr : Attribute
deriving DecidableEq, Repr

/-- The `reportSectionRecord` stored under
(`content/{reportID}`, `{attrHash}/{random}`). -/
structure ReportSectionRec where
  pk : String
  sk : String
  data : JsonVal ReportSection
  expiresAt : Time
deriving DecidableEq, Repr

/-- Embeds `DataStoreService.FetchReportSection`: read every record under
partition `content/{reportID}` and unmarshal each. -/
def fetchReportSection (s : List ReportSectionRec) (reportID : String) :
    Except (JsonVal ReportSection) (List ReportSection) :=
  let pk := "content/" ++ reportID
  decodeList ((s.filter (fun r => r.pk == pk)).map (·.data))

/-- The `internal/errors.Error` as produced by the SFn service (message only). -/
structure SfnError where
  message : String
deriving DecidableEq, Repr

/-- Embeds `strings.Split(s, ":")`: cut `s` at every colon.  Defined by
structural recursion on the character list so that it matches the Go
semantics: splitting the empty string yields one empty field, and `n`
colons yield `n + 1` fields. -/
def splitColsAux : List Char → List (List Char)
  | [] => [[]]
  | c :: rest =>
      let r := splitColsAux rest
      if c = ':' then [] :: r
      else
        match r with
        | [] => [[c]]
        | w :: ws => (c :: w) :: ws

/-- Embeds `strings.Split(arn, ":")` on strings. -/
def splitColons (s : String) : List String :=
  (splitColsAux s.data).map (fun l => { data := l })

/-- Embeds `extractSFnRegion`: split the ARN on colons; reject it unless there
are exactly 7 parts, otherwise return the 4th part (index 3), e.g.
`arn:aws:states:us-east-1:111122223333:stateMachine:machine-name`
yields `us-east-1`. -/
def extractSFnRegion (arn : String) : Except SfnError String :=
  let arnParts := splitColons arn
  if arnParts.length ≠ 7 then
    .error { message := "Invalid state machine ARN" }
  else
    .ok (arnParts.getD 3 "")

/-- The observable outcome of one `SFnService.Exec` call: the returned
error, and the `StartExecution` invocation it made, if any, as the
(region of the client, state-machine ARN, marshalled input) triple. -/
structure ExecTrace where
  err : Option SfnError
  started : Option (String × String × String)
deriving DecidableEq, Repr

/-- Embeds `SFnService.Exec`: marshal the payload (`marshal` is the outcome of
`json.Marshal(data)`, which can fail for an arbitrary `interface{}`),
extract the region from the ARN, and only then call `StartExecution`
against a client for that region (`startErr` is that call's outcome).
Both failure paths before the call leave `started = none`. -/
def exec (marshal : Except SfnError String) (arn : String)
    (startErr : Option SfnError) : ExecTrace :=
  match marshal with
  | .error e => { err := some e, started := none }
  | .ok raw =>
      match extractSFnRegion arn with
      | .error e => { err := some e, started := none }
      | .ok region => { err := startErr, started := some (region, arn, raw) }

/-! ### Step lemmas for `takeReport` -/

theorem takeReport_absent (s : CorrStore) (a : Alert) (now : Time) (fid : String)
    (h : s ("alertmap/" ++ a.alertID, "Fixed") = none) :
    takeReport s a now fid =
      ({ id := fid, status := .new, createdAt := now },
       corrPut s ("alertmap/" ++ a.alertID, "Fixed")
         { expiresAt := a.timestamp + ttl3h, createdAt := now, reportID := fid }) := by
  simp [takeReport, h]

theorem takeReport_expired (s : CorrStore) (a : Alert) (now : Time) (fid : String)
    (e : AlertEntryRec) (h : s ("alertmap/" ++ a.alertID, "Fixed") = some e)
    (hex : e.expiresAt < a.timestamp) :
    takeReport s a now fid =
      ({ id := fid, status := .new, createdAt := now },
       corrPut s ("alertmap/" ++ a.alertID, "Fixed")
         { expiresAt := a.timestamp + ttl3h, createdAt := now, reportID := fid }) := by
  simp [takeReport, h, hex]

theorem takeReport_live (s : CorrStore) (a : Alert) (now : Time) (fid : String)
    (e : AlertEntryRec) (h : s ("alertmap/" ++ a.alertID, "Fixed") = some e)
    (hlive : a.timestamp ≤ e.expiresAt) :
    takeReport s a now fid =
      ({ id := e.reportID, status := .more, createdAt := e.createdAt }, s) := by
  simp [takeReport, h, not_lt.mpr hlive]

theorem corrPut_self (s : CorrStore) (k : String × String) (e : AlertEntryRec) :
    corrPut s k e k = some e := by
  simp [corrPut]

theorem corrPut_other (s : CorrStore) (k q : String × String) (e : AlertEntryRec)
    (h : q ≠ k) : corrPut s k e q = s q := by
  simp [corrPut, h]

/-! ### Step lemmas for `putAttributeCache` -/

theorem putAttributeCache_fault (s : AttrStore) (rid : String) (a : Attribute)
    (now : Time) (e : StorageFault) :
    putAttributeCache s rid a now (some e) = ((false, some e), s) := by
  simp [putAttributeCache]

theorem putAttributeCache_absent (s : AttrStore) (rid : String) (a : Attribute)
    (now : Time) (h : s ("attribute/" ++ rid, a.hash) = none) :
    putAttributeCache s rid a now none =
      ((true, none),
       attrPut s ("attribute/" ++ rid, a.hash)
         { expiresAt := now + ttl3h, timestamp := a.timestamp.getD now,
           attrKey := a.key, attrType := a.type, attrValue := a.value }) := by
  cases ht : a.timestamp <;> simp [putAttributeCache, h, ht]

theorem putAttributeCache_expired (s : AttrStore) (rid : String) (a : Attribute)
    (now : Time) (e : AttributeCacheRec)
    (h : s ("attribute/" ++ rid, a.hash) = some e) (hex : e.expiresAt < now) :
    putAttributeCache s rid a now none =
      ((true, none),
       attrPut s ("attribute/" ++ rid, a.hash)
         { expiresAt := now + ttl3h, timestamp := a.timestamp.getD now,
           attrKey := a.key, attrType := a.type, attrValue := a.value }) := by
  cases ht : a.timestamp <;> simp [putAttributeCache, h, hex, ht]

theorem putAttributeCache_live (s : AttrStore) (rid : String) (a : Attribute)
    (now : Time) (e : AttributeCacheRec)
    (h : s ("attribute/" ++ rid, a.hash) = some e) (hlive : now ≤ e.expiresAt) :
    putAttributeCache s rid a now none = ((false, none), s) := by
  cases ht : a.timestamp <;> simp [putAttributeCache, h, not_lt.mpr hlive, ht]

theorem attrPut_self (s : AttrStore) (k : String × (String × String × String))
    (e : AttributeCacheRec) : attrPut s k e k = some e := by
  simp [attrPut]

theorem attrPut_other (s : AttrStore) (k q : String × (String × String × String))
    (e : AttributeCacheRec) (h : q ≠ k) : attrPut s k e q = s q := by
  simp [attrPut, h]

/-- While a live entry `e` is in place and every call's event timestamp
is at most `e.expiresAt`, every `TakeReport` call loses the conditional
write, returns MORE with `e`'s identity, and leaves the store unchanged. -/
theorem runTakeReports_live (s : CorrStore) (aid : String) (e : AlertEntryRec)
    (hs : s ("alertmap/" ++ aid, "Fixed") = some e)
    (calls : List (Alert × Time × String))
    (hall : ∀ c ∈ calls, c.1.alertID = aid ∧ c.1.timestamp ≤ e.expiresAt) :
    runTakeReports s calls =
      (calls.map (fun _ =>
        ({ id := e.reportID, status := .more, createdAt := e.createdAt } : Report)), s) := by
  induction calls with
  | nil => simp [runTakeReports]
  | cons c rest ih =>
      obtain ⟨a, now, fid⟩ := c
      have h1 := hall _ (List.mem_cons_self _ _)
      have hkey : s ("alertmap/" ++ a.alertID, "Fixed") = some e := by
        rw [show a.alertID = aid from h1.1]; exact hs
      simp only [runTakeReports, takeReport_live s a now fid e hkey h1.2,
        ih (fun c hc => hall c (List.mem_cons_of_mem _ hc)), List.map_cons]

/-- While a live admission entry `e` is in place and every call's
wall-clock time is at most `e.expiresAt`, every `PutAttributeCache` call
for an attribute with the matching hash loses the conditional write,
returns `(false, nil)` and leaves the store unchanged. -/
theorem runPutAttributeCaches_live (s : AttrStore) (rid : String)
    (hv : String × String × String) (e : AttributeCacheRec)
    (hs : s ("attribute/" ++ rid, hv) = some e)
    (calls : List (Attribute × Time))
    (hall : ∀ c ∈ calls, c.1.hash = hv ∧ c.2 ≤ e.expiresAt) :
    runPutAttributeCaches s rid calls =
      (calls.map (fun _ => ((false, none) : Bool × Option StorageFault)), s) := by
  induction calls with
  | nil => simp [runPutAttributeCaches]
  | cons c rest ih =>
      obtain ⟨a, now⟩ := c
      have h1 := hall _ (List.mem_cons_self _ _)
      have hkey : s ("attribute/" ++ rid, a.hash) = some e := by
        rw [show a.hash = hv from h1.1]; exact hs
      simp only [runPutAttributeCaches, putAttributeCache_live s rid a now e hkey h1.2,
        ih (fun c hc => hall c (List.mem_cons_of_mem _ hc)), List.map_cons]

/-- C1: for N concurrent `TakeReport` calls (modelled as the N calls run
in an arbitrary serialization order, which is what DynamoDB's atomic
conditional writes guarantee) with the same alert identity, event
timestamps all within one window, and no pre-existing entry for that
identity, exactly one call returns status NEW and every call returns the
first call's freshly generated report identity; likewise, for N
concurrent `PutAttributeCache` calls with the same attribute hash and
wall-clock times all within one TTL, exactly one returns `true`. -/
theorem C1_single_winner
    (s0 : CorrStore) (aid : String)
    (first : Alert × Time × String) (rest : List (Alert × Time × String))
    (t0 : AttrStore) (rid : String) (hv : String × String × String)
    (afirst : Attribute × Time) (arest : List (Attribute × Time))
    (hs0 : s0 ("alertmap/" ++ aid, "Fixed") = none)
    (hid : ∀ c ∈ first :: rest, c.1.alertID = aid)
    (hwin : ∀ c ∈ first :: rest, ∀ c' ∈ first :: rest,
      c'.1.timestamp ≤ c.1.timestamp + ttl3h)
    (ht0 : t0 ("attribute/" ++ rid, hv) = none)
    (hhash : ∀ c ∈ afirst :: arest, c.1.hash = hv)
    (httl : ∀ c ∈ afirst :: arest, ∀ c' ∈ afirst :: arest, c'.2 ≤ c.2 + ttl3h) :
    (((runTakeReports s0 (first :: rest)).1.countP
        (fun r => r.status == ReportStatus.new)) = 1
      ∧ ∀ r ∈ (runTakeReports s0 (first :: rest)).1, r.id = first.2.2)
    ∧ ((runPutAttributeCaches t0 rid (afirst :: arest)).1.countP (fun r => r.1)) = 1 := by
  obtain ⟨a1, now1, fid1⟩ := first
  obtain ⟨b1, bn1⟩ := afirst
  have hkey1 : s0 ("alertmap/" ++ a1.alertID, "Fixed") = none := by
    rw [show a1.alertID = aid from hid _ (List.mem_cons_self _ _)]; exact hs0
  have htk := takeReport_absent s0 a1 now1 fid1 hkey1
  have hs1 : corrPut s0 ("alertmap/" ++ a1.alertID, "Fixed")
      { expiresAt := a1.timestamp + ttl3h, createdAt := now1, reportID := fid1 }
      ("alertmap/" ++ aid, "Fixed") = some
      { expiresAt := a1.timestamp + ttl3h, createdAt := now1, reportID := fid1 } := by
    rw [show a1.alertID = aid from hid _ (List.mem_cons_self _ _)]
    exact corrPut_self _ _ _
  have hrest : ∀ c ∈ rest, c.1.alertID = aid ∧
      c.1.timestamp ≤ a1.timestamp + ttl3h := by
    intro c hc
    exact ⟨hid c (List.mem_cons_of_mem _ hc),
      hwin (a1, now1, fid1) (List.mem_cons_self _ _) c (List.mem_cons_of_mem _ hc)⟩
  have hrun := runTakeReports_live _ aid _ hs1 rest hrest
  have hbkey1 : t0 ("attribute/" ++ rid, b1.hash) = none := by
    rw [show b1.hash = hv from hhash _ (List.mem_cons_self _ _)]; exact ht0
  have hbtk := putAttributeCache_absent t0 rid b1 bn1 hbkey1
  have ht1 : attrPut t0 ("attribute/" ++ rid, b1.hash)
      { expiresAt := bn1 + ttl3h, timestamp := b1.timestamp.getD bn1,
        attrKey := b1.key, attrType := b1.type, attrValue := b1.value }
      ("attribute/" ++ rid, hv) = some
      { expiresAt := bn1 + ttl3h, timestamp := b1.timestamp.getD bn1,
        attrKey := b1.key, attrType := b1.type, attrValue := b1.value } := by
    rw [show b1.hash = hv from hhash _ (List.mem_cons_self _ _)]
    exact attrPut_self _ _ _
  have hbrest : ∀ c ∈ arest, c.1.hash = hv ∧ c.2 ≤ bn1 + ttl3h := by
    intro c hc
    exact ⟨hhash c (List.mem_cons_of_mem _ hc),
      httl (b1, bn1) (List.mem_cons_self _ _) c (List.mem_cons_of_mem _ hc)⟩
  have hbrun := runPutAttributeCaches_live _ rid hv _ ht1 arest hbrest
  refine ⟨⟨?_, ?_⟩, ?_⟩
  · simp only [runTakeReports, htk, hrun, List.countP_cons]
    simp [List.countP_eq_zero]
  · intro r hr
    simp only [runTakeReports, htk, hrun] at hr
    rcases List.mem_cons.mp hr with h | h
    · rw [h]
    · obtain ⟨c, _, hc⟩ := List.mem_map.mp h
      rw [← hc]
  · simp only [runPutAttributeCaches, hbtk, hbrun, List.countP_cons]
    simp [List.countP_eq_zero]

/-- C1 witness: two racing `TakeReport` calls for alert identity
`d/r/k` with in-window timestamps, and two racing `PutAttributeCache`
calls with the same attribute hash, at concrete inputs. -/
theorem C1_single_winner_witness :
    (((runTakeReports emptyCorr
        [({ detector := "d", ruleName := "r", alertKey := "k", timestamp := 0 }, 1, "f1"),
         ({ detector := "d", ruleName := "r", alertKey := "k", timestamp := 2 }, 3, "f2")]).1.countP
        (fun r => r.status == ReportStatus.new)) = 1
      ∧ ∀ r ∈ (runTakeReports emptyCorr
        [({ detector := "d", ruleName := "r", alertKey := "k", timestamp := 0 }, 1, "f1"),
         ({ detector := "d", ruleName := "r", alertKey := "k", timestamp := 2 }, 3, "f2")]).1,
        r.id = "f1")
    ∧ ((runPutAttributeCaches emptyAttr "R"
        [({ key := "ip", type := "ipv4", value := "1.2.3.4", timestamp := none }, 5),
         ({ key := "ip", type := "ipv4", value := "1.2.3.4", timestamp := some 9 }, 6)]).1.countP
        (fun r => r.1)) = 1 :=
  C1_single_winner emptyCorr "d/r/k"
    ({ detector := "d", ruleName := "r", alertKey := "k", timestamp := 0 }, 1, "f1")
    [({ detector := "d", ruleName := "r", alertKey := "k", timestamp := 2 }, 3, "f2")]
    emptyAttr "R" ("ip", "ipv4", "1.2.3.4")
    ({ key := "ip", type := "ipv4", value := "1.2.3.4", timestamp := none }, 5)
    [({ key := "ip", type := "ipv4", value := "1.2.3.4", timestamp := some 9 }, 6)]
    (by decide) (by decide) (by decide) (by decide) (by decide) (by decide)

/-- C2 fails as stated: on the NEW branch `TakeReport` sets `createdAt`
to the wall-clock time of the call (`time.Now().UTC()`), not to the
call's event timestamp.  At event timestamp 0 and wall clock 5 the
returned report has status NEW and `createdAt = 5 ≠ 0`. -/
theorem C2_counterexample :
    (takeReport emptyCorr
        { detector := "d", ruleName := "r", alertKey := "k", timestamp := 0 } 5 "r1").1.status
      = ReportStatus.new
    ∧ (takeReport emptyCorr
        { detector := "d", ruleName := "r", alertKey := "k", timestamp := 0 } 5 "r1").1.createdAt
      ≠ ({ detector := "d", ruleName := "r", alertKey := "k", timestamp := 0 } : Alert).timestamp := by
  decide

/-- C2 (amended): when the conditional write succeeds (key absent or
existing entry expired) `TakeReport` returns the freshly generated
report identity, status NEW, and a `createdAt` equal to the wall-clock
time of the call (not the event timestamp); when the write is rejected
because a live entry exists, it reads that entry and returns the
existing report identity, status MORE, and the existing entry's
`createdAt`, and the candidate identity is discarded: the store is left
unchanged. -/
theorem C2_contract (s : CorrStore) (a : Alert) (now : Time) (fid : String) :
    ((s ("alertmap/" ++ a.alertID, "Fixed") = none
        ∨ ∃ e, s ("alertmap/" ++ a.alertID, "Fixed") = some e ∧ e.expiresAt < a.timestamp) →
      (takeReport s a now fid).1 = { id := fid, status := .new, createdAt := now })
    ∧ ∀ e, s ("alertmap/" ++ a.alertID, "Fixed") = some e → a.timestamp ≤ e.expiresAt →
        (takeReport s a now fid).1 =
          { id := e.reportID, status := .more, createdAt := e.createdAt }
        ∧ (takeReport s a now fid).2 = s := by
  constructor
  · rintro (h | ⟨e, h, hex⟩)
    · rw [takeReport_absent s a now fid h]
    · rw [takeReport_expired s a now fid e h hex]
  · intro e h hlive
    rw [takeReport_live s a now fid e h hlive]
    exact ⟨rfl, rfl⟩

/-- C2 witness: both branches of the contract at concrete inputs. -/
theorem C2_contract_witness :
    (takeReport emptyCorr
        { detector := "d", ruleName := "r", alertKey := "k", timestamp := 10 } 7 "w1").1
      = { id := "w1", status := .new, createdAt := 7 }
    ∧ (takeReport (corrPut emptyCorr ("alertmap/d/r/k", "Fixed")
          { expiresAt := 100, createdAt := 4, reportID := "rX" })
        { detector := "d", ruleName := "r", alertKey := "k", timestamp := 10 } 9 "w2").1
      = { id := "rX", status := .more, createdAt := 4 } :=
  ⟨(C2_contract emptyCorr
      { detector := "d", ruleName := "r", alertKey := "k", timestamp := 10 } 7 "w1").1
      (Or.inl (by decide)),
   ((C2_contract (corrPut emptyCorr ("alertmap/d/r/k", "Fixed")
        { expiresAt := 100, createdAt := 4, reportID := "rX" })
      { detector := "d", ruleName := "r", alertKey := "k", timestamp := 10 } 9 "w2").2
      { expiresAt := 100, createdAt := 4, reportID := "rX" } (by decide) (by decide)).1⟩

/-- C3 fails as stated: a call whose event timestamp equals the stored
entry's `expiresAt` is NOT treated as expired.  With a stored entry
expiring at 10 and a call at event timestamp 10, the conditional
predicate `expires_at < ts` is false, so the entry counts as live and
the call returns MORE with the old identity instead of NEW with a fresh
one. -/
theorem C3_counterexample :
    (takeReport (corrPut emptyCorr ("alertmap/d/r/k", "Fixed")
        { expiresAt := 10, createdAt := 3, reportID := "rOld" })
      { detector := "d", ruleName := "r", alertKey := "k", timestamp := 10 } 20 "rNew").1
      = { id := "rOld", status := ReportStatus.more, createdAt := 3 } := by
  decide

/-- C3 (amended): an existing entry counts as live iff its `expiresAt`
is greater than or equal to the call's event timestamp (the conditional
predicate is `expires_at < ts`).  At the boundary
`eventTimestamp = expiresAt` the entry is still live: the call joins the
existing window and returns MORE with the existing identity.  A call
with `t2 > t1 + W` finds the entry expired and returns NEW with its own
fresh (distinct) identity. -/
theorem C3_window_liveness (s s0 : CorrStore) (a a1 a2 : Alert)
    (now now1 now2 : Time) (fid fid1 fid2 : String) (e : AlertEntryRec) :
    (s ("alertmap/" ++ a.alertID, "Fixed") = some e →
      (((takeReport s a now fid).1.status = .more ↔ a.timestamp ≤ e.expiresAt)
        ∧ (a.timestamp = e.expiresAt →
            (takeReport s a now fid).1 =
              { id := e.reportID, status := .more, createdAt := e.createdAt })))
    ∧ (s0 ("alertmap/" ++ a1.alertID, "Fixed") = none → a2.alertID = a1.alertID →
        a1.timestamp + ttl3h < a2.timestamp →
        (takeReport s0 a1 now1 fid1).1.status = .new
        ∧ (takeReport s0 a1 now1 fid1).1.id = fid1
        ∧ (takeReport (takeReport s0 a1 now1 fid1).2 a2 now2 fid2).1.status = .new
        ∧ (takeReport (takeReport s0 a1 now1 fid1).2 a2 now2 fid2).1.id = fid2) := by
  constructor
  · intro h
    constructor
    · by_cases hex : e.expiresAt < a.timestamp
      · rw [takeReport_expired s a now fid e h hex]
        simp [not_le.mpr hex]
      · rw [takeReport_live s a now fid e h (not_lt.mp hex)]
        simp [not_lt.mp hex]
    · intro hb
      exact (takeReport_live s a now fid e h (le_of_eq hb)).symm ▸ rfl
  · intro h0 hsame hroll
    rw [takeReport_absent s0 a1 now1 fid1 h0]
    have hkey2 : corrPut s0 ("alertmap/" ++ a1.alertID, "Fixed")
        { expiresAt := a1.timestamp + ttl3h, createdAt := now1, reportID := fid1 }
        ("alertmap/" ++ a2.alertID, "Fixed") = some
        { expiresAt := a1.timestamp + ttl3h, createdAt := now1, reportID := fid1 } := by
      rw [hsame]; exact corrPut_self _ _ _
    rw [takeReport_expired _ a2 now2 fid2 _ hkey2 hroll]
    exact ⟨rfl, rfl, rfl, rfl⟩

/-- C3 witness: a boundary call (event timestamp 10 against expiry 10)
joins the window; a rollover call (t2 past t1 + W) starts a new one. -/
theorem C3_window_liveness_witness :
    ((takeReport (corrPut emptyCorr ("alertmap/d2/r2/k2", "Fixed")
        { expiresAt := 10, createdAt := 2, reportID := "old" })
      { detector := "d2", ruleName := "r2", alertKey := "k2", timestamp := 10 } 11 "nw").1.status
        = ReportStatus.more ↔ (10 : Time) ≤ 10)
    ∧ (takeReport (takeReport emptyCorr
        { detector := "d2", ruleName := "r2", alertKey := "k2", timestamp := 0 } 1 "ra").2
        { detector := "d2", ruleName := "r2", alertKey := "k2", timestamp := 20000 } 2 "rb").1.id
      = "rb" :=
  ⟨((C3_window_liveness (corrPut emptyCorr ("alertmap/d2/r2/k2", "Fixed")
        { expiresAt := 10, createdAt := 2, reportID := "old" }) emptyCorr
      { detector := "d2", ruleName := "r2", alertKey := "k2", timestamp := 10 }
      { detector := "x", ruleName := "x", alertKey := "x", timestamp := 0 }
      { detector := "x", ruleName := "x", alertKey := "x", timestamp := 0 }
      11 0 0 "nw" "u1" "u2"
      { expiresAt := 10, createdAt := 2, reportID := "old" }).1 (by decide)).1,
   ((C3_window_liveness emptyCorr emptyCorr
      { detector := "x", ruleName := "x", alertKey := "x", timestamp := 0 }
      { detector := "d2", ruleName := "r2", alertKey := "k2", timestamp := 0 }
      { detector := "d2", ruleName := "r2", alertKey := "k2", timestamp := 20000 }
      0 1 2 "u0" "ra" "rb"
      { expiresAt := 0, createdAt := 0, reportID := "z" }).2 (by decide) (by decide)
      (by decide)).2.2.2⟩

/-- One `TakeReport` call either leaves the store unchanged or writes
exactly one record, at (`alertmap/{alertID}`, `Fixed`). -/
theorem takeReport_store_cases (s : CorrStore) (a : Alert) (now : Time) (fid : String) :
    (takeReport s a now fid).2 = s
    ∨ (takeReport s a now fid).2 = corrPut s ("alertmap/" ++ a.alertID, "Fixed")
        { expiresAt := a.timestamp + ttl3h, createdAt := now, reportID := fid } := by
  rcases h : s ("alertmap/" ++ a.alertID, "Fixed") with _ | e
  · right; rw [takeReport_absent s a now fid h]
  · by_cases hex : e.expiresAt < a.timestamp
    · right; rw [takeReport_expired s a now fid e h hex]
    · left; rw [takeReport_live s a now fid e h (not_lt.mp hex)]

/-- Every key populated by a sequence of `TakeReport` calls was either
already populated or is (`alertmap/{alertID}`, `Fixed`) for one of the
calls' alerts. -/
theorem runTakeReports_keys (calls : List (Alert × Time × String)) (s : CorrStore)
    (k : String × String) (h : (runTakeReports s calls).2 k ≠ none) :
    s k ≠ none ∨ (k.2 = "Fixed" ∧ ∃ c ∈ calls, k.1 = "alertmap/" ++ c.1.alertID) := by
  induction calls generalizing s with
  | nil => left; simpa [runTakeReports] using h
  | cons c rest ih =>
      obtain ⟨a, now, fid⟩ := c
      simp only [runTakeReports] at h
      rcases ih _ h with h1 | h1
      · rcases takeReport_store_cases s a now fid with hc | hc
        · rw [hc] at h1; left; exact h1
        · rw [hc] at h1
          by_cases hk : k = ("alertmap/" ++ a.alertID, "Fixed")
          · right
            exact ⟨by rw [hk], ⟨(a, now, fid), List.mem_cons_self _ _, by rw [hk]⟩⟩
          · rw [corrPut_other s _ k _ hk] at h1; left; exact h1
      · obtain ⟨c', hc', hk'⟩ := h1.2
        exact Or.inr ⟨h1.1, c', List.mem_cons_of_mem _ hc', hk'⟩

/-- C4: starting from an empty table, every key a sequence of
`TakeReport` calls populates has the single fixed sort key and partition
`alertmap/{alertID}` for one of the calls — so at most one
CorrelationEntry per alert identity; a live entry is never overwritten
or mutated (the store is returned unchanged); a call touches no key
other than its own; and a call stores its fresh entry exactly when its
key is absent or the existing entry is expired. -/
theorem C4_single_entry_immutable
    (calls : List (Alert × Time × String)) (k : String × String)
    (s : CorrStore) (a : Alert) (now : Time) (fid : String) :
    ((runTakeReports emptyCorr calls).2 k ≠ none →
      k.2 = "Fixed" ∧ ∃ c ∈ calls, k.1 = "alertmap/" ++ c.1.alertID)
    ∧ (∀ e, s ("alertmap/" ++ a.alertID, "Fixed") = some e → a.timestamp ≤ e.expiresAt →
        (takeReport s a now fid).2 = s)
    ∧ (k ≠ ("alertmap/" ++ a.alertID, "Fixed") → (takeReport s a now fid).2 k = s k)
    ∧ ((s ("alertmap/" ++ a.alertID, "Fixed") = none
        ∨ ∃ e, s ("alertmap/" ++ a.alertID, "Fixed") = some e ∧ e.expiresAt < a.timestamp) →
        (takeReport s a now fid).2 ("alertmap/" ++ a.alertID, "Fixed") =
          some { expiresAt := a.timestamp + ttl3h, createdAt := now, reportID := fid }) := by
  refine ⟨?_, ?_, ?_, ?_⟩
  · intro h
    rcases runTakeReports_keys calls emptyCorr k h with h1 | h1
    · exact absurd rfl h1
    · exact h1
  · intro e h hlive
    rw [takeReport_live s a now fid e h hlive]
  · intro hk
    rcases takeReport_store_cases s a now fid with hc | hc
    · rw [hc]
    · rw [hc, corrPut_other s _ k _ hk]
  · rintro (h | ⟨e, h, hex⟩)
    · rw [takeReport_absent s a now fid h]; exact corrPut_self _ _ _
    · rw [takeReport_expired s a now fid e h hex]; exact corrPut_self _ _ _

/-- C4 witness: after two calls for identities `d/r/k` and `d/r/q`, the
key of the first is populated; a live entry survives a later call
unchanged; an absent key receives the fresh entry. -/
theorem C4_single_entry_immutable_witness :
    ((runTakeReports emptyCorr
        [({ detector := "d", ruleName := "r", alertKey := "k", timestamp := 0 }, 1, "f1"),
         ({ detector := "d", ruleName := "r", alertKey := "q", timestamp := 2 }, 3, "f2")]).2
        ("alertmap/d/r/k", "Fixed") ≠ none →
      ("alertmap/d/r/k", ("Fixed" : String)).2 = "Fixed"
        ∧ ∃ c ∈ [(({ detector := "d", ruleName := "r", alertKey := "k", timestamp := 0 } : Alert), (1 : Time), "f1"),
            ({ detector := "d", ruleName := "r", alertKey := "q", timestamp := 2 }, 3, "f2")],
          ("alertmap/d/r/k", ("Fixed" : String)).1 = "alertmap/" ++ c.1.alertID)
    ∧ (takeReport (corrPut emptyCorr ("alertmap/d/r/k", "Fixed")
          { expiresAt := 50, createdAt := 1, reportID := "f1" })
        { detector := "d", ruleName := "r", alertKey := "k", timestamp := 30 } 31 "f3").2
      = corrPut emptyCorr ("alertmap/d/r/k", "Fixed")
          { expiresAt := 50, createdAt := 1, reportID := "f1" }
    ∧ (takeReport emptyCorr
        { detector := "d", ruleName := "r", alertKey := "k", timestamp := 30 } 31 "f3").2
        ("alertmap/d/r/k", "Fixed")
      = some { expiresAt := 30 + ttl3h, createdAt := 31, reportID := "f3" } :=
  ⟨(C4_single_entry_immutable
      [({ detector := "d", ruleName := "r", alertKey := "k", timestamp := 0 }, 1, "f1"),
       ({ detector := "d", ruleName := "r", alertKey := "q", timestamp := 2 }, 3, "f2")]
      ("alertmap/d/r/k", "Fixed") emptyCorr
      { detector := "d", ruleName := "r", alertKey := "k", timestamp := 30 } 31 "f3").1,
   ((C4_single_entry_immutable [] ("alertmap/d/r/k", "Fixed")
      (corrPut emptyCorr ("alertmap/d/r/k", "Fixed")
        { expiresAt := 50, createdAt := 1, reportID := "f1" })
      { detector := "d", ruleName := "r", alertKey := "k", timestamp := 30 } 31 "f3").2.1
      { expiresAt := 50, createdAt := 1, reportID := "f1" } (by decide) (by decide)),
   ((C4_single_entry_immutable [] ("alertmap/d/r/k", "Fixed") emptyCorr
      { detector := "d", ruleName := "r", alertKey := "k", timestamp := 30 } 31 "f3").2.2.2
      (Or.inl (by decide)))⟩

/-- C5: admission is keyed by attribute identity.  The attribute hash is
deterministic in key, type and value and ignores the observation time;
two sequential `PutAttributeCache` calls within the TTL with identical
attribute fields return `true` then `false`; a call with a different
value returns `true`; and a call identical except for its observation
timestamp hits the same admission entry and returns `false`. -/
theorem C5_admission_identity (rid : String) (a : Attribute) (n1 n2 : Time)
    (v' : String) (t2 : Option Time)
    (hT : n2 ≤ n1 + ttl3h) (hv : v' ≠ a.value) :
    (∀ t, ({ a with timestamp := t } : Attribute).hash = a.hash)
    ∧ (putAttributeCache emptyAttr rid a n1 none).1 = (true, none)
    ∧ (putAttributeCache (putAttributeCache emptyAttr rid a n1 none).2
        rid a n2 none).1 = (false, none)
    ∧ (putAttributeCache (putAttributeCache emptyAttr rid a n1 none).2
        rid { a with value := v' } n2 none).1 = (true, none)
    ∧ (putAttributeCache (putAttributeCache emptyAttr rid a n1 none).2
        rid { a with timestamp := t2 } n2 none).1 = (false, none) := by
  have h0 : emptyAttr ("attribute/" ++ rid, a.hash) = none := rfl
  have h1 := putAttributeCache_absent emptyAttr rid a n1 h0
  refine ⟨fun t => rfl, by rw [h1], ?_, ?_, ?_⟩
  · have hk : (putAttributeCache emptyAttr rid a n1 none).2
        ("attribute/" ++ rid, a.hash) =
        some { expiresAt := n1 + ttl3h, timestamp := a.timestamp.getD n1,
               attrKey := a.key, attrType := a.type, attrValue := a.value } := by
      rw [h1]; exact attrPut_self _ _ _
    rw [putAttributeCache_live _ rid a n2 _ hk hT]
  · have hne : (("attribute/" ++ rid, ({ a with value := v' } : Attribute).hash)
        : String × (String × String × String)) ≠ ("attribute/" ++ rid, a.hash) := by
      simp [Attribute.hash, hv]
    have hk : (putAttributeCache emptyAttr rid a n1 none).2
        ("attribute/" ++ rid, ({ a with value := v' } : Attribute).hash) = none := by
      rw [h1]
      exact (attrPut_other _ _ _ _ hne).trans rfl
    rw [putAttributeCache_absent _ rid _ n2 hk]
  · have hk : (putAttributeCache emptyAttr rid a n1 none).2
        ("attribute/" ++ rid, ({ a with timestamp := t2 } : Attribute).hash) =
        some { expiresAt := n1 + ttl3h, timestamp := a.timestamp.getD n1,
               attrKey := a.key, attrType := a.type, attrValue := a.value } := by
      rw [show ({ a with timestamp := t2 } : Attribute).hash = a.hash from rfl, h1]
      exact attrPut_self _ _ _
    rw [putAttributeCache_live _ rid _ n2 _ hk hT]

/-- C5 witness: the `Admit(R1, ip:1.2.3.4)` scenario at concrete times
10 and 20, with alternative value `5.6.7.8` and shifted observation
time 99. -/
theorem C5_admission_identity_witness :
    (putAttributeCache emptyAttr "R1"
        { key := "ip", type := "ipv4", value := "1.2.3.4", timestamp := some 7 } 10 none).1
      = (true, none)
    ∧ (putAttributeCache (putAttributeCache emptyAttr "R1"
        { key := "ip", type := "ipv4", value := "1.2.3.4", timestamp := some 7 } 10 none).2
        "R1" { key := "ip", type := "ipv4", value := "1.2.3.4", timestamp := some 99 } 20 none).1
      = (false, none)
    ∧ (putAttributeCache (putAttributeCache emptyAttr "R1"
        { key := "ip", type := "ipv4", value := "1.2.3.4", timestamp := some 7 } 10 none).2
        "R1" { key := "ip", type := "ipv4", value := "5.6.7.8", timestamp := some 7 } 20 none).1
      = (true, none) :=
  ⟨(C5_admission_identity "R1"
      { key := "ip", type := "ipv4", value := "1.2.3.4", timestamp := some 7 }
      10 20 "5.6.7.8" (some 99) (by decide) (by decide)).2.1,
   (C5_admission_identity "R1"
      { key := "ip", type := "ipv4", value := "1.2.3.4", timestamp := some 7 }
      10 20 "5.6.7.8" (some 99) (by decide) (by decide)).2.2.2.2,
   (C5_admission_identity "R1"
      { key := "ip", type := "ipv4", value := "1.2.3.4", timestamp := some 7 }
      10 20 "5.6.7.8" (some 99) (by decide) (by decide)).2.2.2.1⟩

/-- C6: `PutAttributeCache` never reports a conditional-write conflict
as an error: an injected storage fault is returned as a non-nil error
(with `admitted = false` carrying no meaning), a fault-free call always
returns a nil error, and a conditional-check failure against a live
entry returns exactly `(false, nil)`. -/
theorem C6_conflict_not_error (s : AttrStore) (rid : String) (a : Attribute)
    (now : Time) (e : StorageFault) :
    (putAttributeCache s rid a now (some e)).1 = (false, some e)
    ∧ (putAttributeCache s rid a now none).1.2 = none
    ∧ ∀ ent, s ("attribute/" ++ rid, a.hash) = some ent → now ≤ ent.expiresAt →
        (putAttributeCache s rid a now none).1 = (false, none) := by
  refine ⟨(putAttributeCache_fault s rid a now e).symm ▸ rfl, ?_, ?_⟩
  · rcases h : s ("attribute/" ++ rid, a.hash) with _ | ent
    · rw [putAttributeCache_absent s rid a now h]
    · by_cases hex : ent.expiresAt < now
      · rw [putAttributeCache_expired s rid a now ent h hex]
      · rw [putAttributeCache_live s rid a now ent h (not_lt.mp hex)]
  · intro ent h hlive
    rw [putAttributeCache_live s rid a now ent h hlive]

/-- C6 witness: a fault surfaces as a non-nil error; a live-entry
conflict yields `(false, nil)`, at concrete inputs. -/
theorem C6_conflict_not_error_witness :
    (putAttributeCache emptyAttr "R2"
        { key := "k", type := "t", value := "v", timestamp := none } 5 (some { code := 7 })).1
      = (false, some { code := 7 })
    ∧ (putAttributeCache (attrPut emptyAttr ("attribute/R2", ("k", "t", "v"))
        { expiresAt := 9, timestamp := 1, attrKey := "k", attrType := "t", attrValue := "v" })
        "R2" { key := "k", type := "t", value := "v", timestamp := none } 5 none).1
      = (false, none) :=
  ⟨(C6_conflict_not_error emptyAttr "R2"
      { key := "k", type := "t", value := "v", timestamp := none } 5 { code := 7 }).1,
   (C6_conflict_not_error (attrPut emptyAttr ("attribute/R2", ("k", "t", "v"))
      { expiresAt := 9, timestamp := 1, attrKey := "k", attrType := "t", attrValue := "v" })
      "R2" { key := "k", type := "t", value := "v", timestamp := none } 5 { code := 7 }).2.2
      { expiresAt := 9, timestamp := 1, attrKey := "k", attrType := "t", attrValue := "v" }
      (by decide) (by decide)⟩

/-- C10: when the attribute's observation time is nil the stored
record's `Timestamp` is the wall-clock time of the call; a successful
write stores `expires_at = now + TTL`; and the returned
(admitted, error) pair is independent of the attribute's observation
time — both the stored expiry and the conditional predicate use
wall-clock `now`. -/
theorem C10_wallclock_admission (s : AttrStore) (rid : String) (a : Attribute)
    (now : Time) (fault : Option StorageFault) (t t' : Option Time) :
    (a.timestamp = none → (putAttributeCache s rid a now none).1.1 = true →
      (putAttributeCache s rid a now none).2 ("attribute/" ++ rid, a.hash) =
        some { expiresAt := now + ttl3h, timestamp := now,
               attrKey := a.key, attrType := a.type, attrValue := a.value })
    ∧ ((putAttributeCache s rid a now none).1.1 = true →
        ∃ r, (putAttributeCache s rid a now none).2 ("attribute/" ++ rid, a.hash) = some r
          ∧ r.expiresAt = now + ttl3h)
    ∧ (putAttributeCache s rid { a with timestamp := t } now fault).1 =
        (putAttributeCache s rid { a with timestamp := t' } now fault).1 := by
  have hsucc : (putAttributeCache s rid a now none).1.1 = true →
      (putAttributeCache s rid a now none).2 ("attribute/" ++ rid, a.hash) =
        some { expiresAt := now + ttl3h, timestamp := a.timestamp.getD now,
               attrKey := a.key, attrType := a.type, attrValue := a.value } := by
    intro hadm
    rcases h : s ("attribute/" ++ rid, a.hash) with _ | ent
    · rw [putAttributeCache_absent s rid a now h]; exact attrPut_self _ _ _
    · by_cases hex : ent.expiresAt < now
      · rw [putAttributeCache_expired s rid a now ent h hex]; exact attrPut_self _ _ _
      · rw [putAttributeCache_live s rid a now ent h (not_lt.mp hex)] at hadm
        simp at hadm
  refine ⟨fun ht hadm => ?_, fun hadm => ⟨_, hsucc hadm, rfl⟩, ?_⟩
  · rw [hsucc hadm, ht]
    rfl
  · have hh : ({ a with timestamp := t } : Attribute).hash = a.hash := rfl
    have hh' : ({ a with timestamp := t' } : Attribute).hash = a.hash := rfl
    rcases fault with _ | e
    · rcases h : s ("attribute/" ++ rid, a.hash) with _ | ent
      · rw [putAttributeCache_absent s rid _ now (hh ▸ h),
          putAttributeCache_absent s rid _ now (hh' ▸ h)]
      · by_cases hex : ent.expiresAt < now
        · rw [putAttributeCache_expired s rid _ now ent (hh ▸ h) hex,
            putAttributeCache_expired s rid _ now ent (hh' ▸ h) hex]
        · rw [putAttributeCache_live s rid _ now ent (hh ▸ h) (not_lt.mp hex),
            putAttributeCache_live s rid _ now ent (hh' ▸ h) (not_lt.mp hex)]
    · rw [putAttributeCache_fault, putAttributeCache_fault]

/-- C10 witness: a nil-timestamp attribute admitted at wall clock 5
stores `Timestamp = 5` and `expires_at = 5 + TTL`; the admitted bit of
two calls differing only in observation time coincides. -/
theorem C10_wallclock_admission_witness :
    (putAttributeCache emptyAttr "R3"
        { key := "k", type := "t", value := "v", timestamp := none } 5 none).2
        ("attribute/R3", ("k", "t", "v")) =
      some { expiresAt := 5 + ttl3h, timestamp := 5,
             attrKey := "k", attrType := "t", attrValue := "v" }
    ∧ (putAttributeCache emptyAttr "R3"
        { key := "k", type := "t", value := "v", timestamp := some 3 } 5 none).1 =
      (putAttributeCache emptyAttr "R3"
        { key := "k", type := "t", value := "v", timestamp := some 8 } 5 none).1 :=
  ⟨(C10_wallclock_admission emptyAttr "R3"
      { key := "k", type := "t", value := "v", timestamp := none } 5 none
      (some 3) (some 8)).1 rfl (by decide),
   (C10_wallclock_admission emptyAttr "R3"
      { key := "k", type := "t", value := "v", timestamp := none } 5 none
      (some 3) (some 8)).2.2⟩

theorem string_append_cancel {p u v : String} (h : p ++ u = p ++ v) : u = v := by
  obtain ⟨pd⟩ := p
  obtain ⟨ud⟩ := u
  obtain ⟨vd⟩ := v
  have h2 : pd ++ ud = pd ++ vd := congrArg String.data h
  exact congrArg String.mk (List.append_cancel_left h2)

/-- The `alertCache` record one `SaveAlertCache` call writes. -/
def alertCacheRecOf (rid : String) (p : Alert × String) : AlertCacheRec :=
  { pk := "alert/" ++ rid, sk := "cache/" ++ p.2,
    alertData := jsonMarshal p.1, expiresAt := p.1.timestamp + ttl3h }

/-- Appending snapshots under pairwise-distinct fresh UUIDs never
replaces anything: the records stored under the report's partition key
afterwards are exactly the new records (in reverse write order) followed
by the records already there. -/
theorem saveAlertCaches_filter (rid : String) (pairs : List (Alert × String))
    (s : List AlertCacheRec) (hnd : (pairs.map (·.2)).Nodup)
    (hfresh : ∀ p ∈ pairs, ∀ r ∈ s, ¬(r.pk = "alert/" ++ rid ∧ r.sk = "cache/" ++ p.2)) :
    (saveAlertCaches s rid pairs).filter (fun r => r.pk == "alert/" ++ rid) =
      (pairs.map (alertCacheRecOf rid)).reverse
        ++ s.filter (fun r => r.pk == "alert/" ++ rid) := by
  induction pairs generalizing s with
  | nil => simp [saveAlertCaches]
  | cons p rest ih =>
      obtain ⟨a, u⟩ := p
      have hstep : saveAlertCache s rid a u = alertCacheRecOf rid (a, u) :: s := by
        simp only [saveAlertCache, alertCachePut, toAlertCacheKey, alertCacheRecOf]
        congr 1
        exact List.filter_eq_self.mpr fun q hq => by
          simpa using not_and_or.mp (hfresh (a, u) (List.mem_cons_self _ _) q hq)
      have hnd' : (rest.map (·.2)).Nodup := by
        simpa using hnd.of_cons
      have hnotin : ∀ p' ∈ rest, u ≠ p'.2 := by
        intro p' hp' he
        have : u ∈ rest.map (·.2) := he ▸ List.mem_map_of_mem (·.2) hp'
        exact (List.nodup_cons.mp (by simpa using hnd)).1 this
      have hfresh' : ∀ p' ∈ rest, ∀ r ∈ alertCacheRecOf rid (a, u) :: s,
          ¬(r.pk = "alert/" ++ rid ∧ r.sk = "cache/" ++ p'.2) := by
        intro p' hp' r hr hbad
        rcases List.mem_cons.mp hr with h1 | h1
        · have : ("cache/" ++ u : String) = "cache/" ++ p'.2 := by
            rw [← hbad.2, h1]
            rfl
          exact hnotin p' hp' (string_append_cancel this)
        · exact hfresh p' (List.mem_cons_of_mem _ hp') r h1 hbad
      calc (saveAlertCaches s rid ((a, u) :: rest)).filter (fun r => r.pk == "alert/" ++ rid)
          = (saveAlertCaches (alertCacheRecOf rid (a, u) :: s) rid rest).filter
              (fun r => r.pk == "alert/" ++ rid) := by
            simp only [saveAlertCaches, hstep]
        _ = (rest.map (alertCacheRecOf rid)).reverse
              ++ (alertCacheRecOf rid (a, u) :: s).filter (fun r => r.pk == "alert/" ++ rid) :=
            ih _ hnd' hfresh'
        _ = ((((a, u) :: rest).map (alertCacheRecOf rid)).reverse)
              ++ s.filter (fun r => r.pk == "alert/" ++ rid) := by
            simp [alertCacheRecOf, List.append_assoc]

/-- Decoding a list of faithfully encoded payloads recovers the list. -/
theorem decodeList_enc {α : Type} (l : List α) :
    decodeList (l.map jsonMarshal) = .ok l := by
  induction l with
  | nil => rfl
  | cons a rest ih => simp [decodeList, jsonMarshal, jsonUnmarshal, ih]

/-- C7: log appends are unconditional and never overwrite.  After k
`SaveAlertCache` appends to one report identity under distinct fresh
UUIDs (starting from an empty partition), `FetchAlertCache` returns
exactly k decoded alerts — a permutation of the appended ones —
and, being a pure read, returns the same k items on any repeated call
with no new appends. -/
theorem C7_log_accumulation (rid : String) (pairs : List (Alert × String))
    (hnd : (pairs.map (·.2)).Nodup) :
    ∃ l, fetchAlertCache (saveAlertCaches [] rid pairs) rid = .ok l
      ∧ l.Perm (pairs.map (·.1)) ∧ l.length = pairs.length := by
  have hfil := saveAlertCaches_filter rid pairs [] hnd (by simp)
  refine ⟨(pairs.map (·.1)).reverse, ?_, List.reverse_perm _, by simp⟩
  have hpk : (toAlertCacheKey rid "").1 = "alert/" ++ rid := rfl
  have hmap : ((saveAlertCaches [] rid pairs).filter
      (fun r => r.pk == "alert/" ++ rid)).map (·.alertData) =
      ((pairs.map (·.1)).reverse).map jsonMarshal := by
    rw [hfil]
    simp [alertCacheRecOf, List.map_reverse, List.map_map, Function.comp]
  show decodeList (((saveAlertCaches [] rid pairs).filter
      (fun r => r.pk == (toAlertCacheKey rid "").1)).map (·.alertData)) = _
  rw [hpk, hmap, decodeList_enc]

/-- C7 witness: two appends, then a fetch returning both alerts. -/
theorem C7_log_accumulation_witness :
    ∃ l, fetchAlertCache (saveAlertCaches [] "R7"
        [({ detector := "d", ruleName := "r", alertKey := "k", timestamp := 0 }, "u1"),
         ({ detector := "d", ruleName := "r", alertKey := "k2", timestamp := 4 }, "u2")]) "R7"
      = .ok l
      ∧ l.Perm [{ detector := "d", ruleName := "r", alertKey := "k", timestamp := 0 },
          { detector := "d", ruleName := "r", alertKey := "k2", timestamp := 4 }]
      ∧ l.length = 2 :=
  C7_log_accumulation "R7"
    [({ detector := "d", ruleName := "r", alertKey := "k", timestamp := 0 }, "u1"),
     ({ detector := "d", ruleName := "r", alertKey := "k2", timestamp := 4 }, "u2")]
    (by decide)

/-- The decode loop aborts on the first undecodable payload: if any
payload in the list fails to unmarshal, the whole decode returns an
error carrying one of the undecodable payloads. -/
theorem decodeList_error {α : Type} (ds : List (JsonVal α))
    (h : ∃ d ∈ ds, jsonUnmarshal d = none) :
    ∃ d, decodeList ds = .error d ∧ jsonUnmarshal d = none ∧ d ∈ ds := by
  induction ds with
  | nil => simp at h
  | cons d rest ih =>
      rcases hd : jsonUnmarshal d with _ | a
      · exact ⟨d, by simp [decodeList, hd], hd, List.mem_cons_self _ _⟩
      · obtain ⟨d', hd', hn⟩ := h
        rcases List.mem_cons.mp hd' with h1 | h1
        · subst h1
          rw [hd] at hn
          cases hn
        · obtain ⟨e, he, hen, hem⟩ := ih ⟨d', h1, hn⟩
          refine ⟨e, ?_, hen, List.mem_cons_of_mem _ hem⟩
          simp [decodeList, hd, he]

/-- C8: `FetchAlertCache` and `FetchReportSection` are all-or-nothing:
if any stored record under the partition fails to decode, the fetch
returns an error carrying the offending record's payload and no partial
collection; a partition with no records yields an empty collection and
no error. -/
theorem C8_fetch_all_or_nothing (s : List AlertCacheRec) (t : List ReportSectionRec)
    (rid : String) :
    ((∃ r ∈ s, r.pk = "alert/" ++ rid ∧ jsonUnmarshal r.alertData = none) →
      ∃ d, fetchAlertCache s rid = .error d ∧ jsonUnmarshal d = none
        ∧ ∃ r ∈ s, r.pk = "alert/" ++ rid ∧ r.alertData = d)
    ∧ ((∀ r ∈ s, r.pk ≠ "alert/" ++ rid) → fetchAlertCache s rid = .ok [])
    ∧ ((∃ r ∈ t, r.pk = "content/" ++ rid ∧ jsonUnmarshal r.data = none) →
      ∃ d, fetchReportSection t rid = .error d ∧ jsonUnmarshal d = none
        ∧ ∃ r ∈ t, r.pk = "content/" ++ rid ∧ r.data = d)
    ∧ ((∀ r ∈ t, r.pk ≠ "content/" ++ rid) → fetchReportSection t rid = .ok []) := by
  refine ⟨?_, ?_, ?_, ?_⟩
  · rintro ⟨r, hr, hpk, hbad⟩
    have hmem : r.alertData ∈ (s.filter (fun q => q.pk == "alert/" ++ rid)).map
        (·.alertData) :=
      List.mem_map_of_mem _ (List.mem_filter.mpr ⟨hr, by simpa using hpk⟩)
    obtain ⟨d, herr, hnone, hdm⟩ := decodeList_error _ ⟨r.alertData, hmem, hbad⟩
    obtain ⟨q, hq, hqd⟩ := List.mem_map.mp hdm
    have hq' := List.mem_filter.mp hq
    exact ⟨d, herr, hnone, q, hq'.1, by simpa using hq'.2, hqd⟩
  · intro hnone
    have : s.filter (fun q => q.pk == "alert/" ++ rid) = [] :=
      List.filter_eq_nil_iff.mpr fun q hq => by simpa using hnone q hq
    show decodeList ((s.filter (fun q => q.pk == (toAlertCacheKey rid "").1)).map
      (·.alertData)) = _
    rw [show (toAlertCacheKey rid "").1 = "alert/" ++ rid from rfl, this]
    rfl
  · rintro ⟨r, hr, hpk, hbad⟩
    have hmem : r.data ∈ (t.filter (fun q => q.pk == "content/" ++ rid)).map (·.data) :=
      List.mem_map_of_mem _ (List.mem_filter.mpr ⟨hr, by simpa using hpk⟩)
    obtain ⟨d, herr, hnone, hdm⟩ := decodeList_error _ ⟨r.data, hmem, hbad⟩
    obtain ⟨q, hq, hqd⟩ := List.mem_map.mp hdm
    have hq' := List.mem_filter.mp hq
    exact ⟨d, herr, hnone, q, hq'.1, by simpa using hq'.2, hqd⟩
  · intro hnone
    have : t.filter (fun q => q.pk == "content/" ++ rid) = [] :=
      List.filter_eq_nil_iff.mpr fun q hq => by simpa using hnone q hq
    show decodeList ((t.filter (fun q => q.pk == "content/" ++ rid)).map (·.data)) = _
    rw [this]
    rfl

/-- C8 witness: a corrupt alert record aborts the fetch with it; empty
partitions fetch as `ok []` for both logs. -/
theorem C8_fetch_all_or_nothing_witness :
    (∃ d, fetchAlertCache
        [{ pk := "alert/R8", sk := "cache/u1", alertData := .corrupt 0, expiresAt := 9 }] "R8"
        = .error d ∧ jsonUnmarshal d = none
        ∧ ∃ r ∈ [({ pk := "alert/R8", sk := "cache/u1", alertData := .corrupt 0, expiresAt := 9 } : AlertCacheRec)],
          r.pk = "alert/" ++ "R8" ∧ r.alertData = d)
    ∧ fetchAlertCache [] "R8" = .ok []
    ∧ fetchReportSection [] "R8" = .ok [] :=
  ⟨(C8_fetch_all_or_nothing
      [{ pk := "alert/R8", sk := "cache/u1", alertData := .corrupt 0, expiresAt := 9 }]
      [] "R8").1
      ⟨{ pk := "alert/R8", sk := "cache/u1", alertData := .corrupt 0, expiresAt := 9 },
        List.mem_cons_self _ _, rfl, rfl⟩,
   (C8_fetch_all_or_nothing [] [] "R8").2.1 (by decide),
   (C8_fetch_all_or_nothing [] [] "R8").2.2.2 (by decide)⟩

/-- C9: `SFnService.Exec` rejects a malformed state-machine ARN before
any external call: whenever the ARN does not split into exactly 7
colon-separated parts, `Exec` returns an error and `StartExecution` is
never invoked; whenever it does (and the payload marshals), the region
of the client used for the call is the 4th colon-separated component. -/
theorem C9_arn_validation (m : Except SfnError String) (arn : String)
    (se : Option SfnError) :
    ((splitColons arn).length ≠ 7 →
      (exec m arn se).started = none ∧ (exec m arn se).err.isSome = true)
    ∧ ∀ raw, m = .ok raw → (splitColons arn).length = 7 →
        (exec m arn se).started = some ((splitColons arn).getD 3 "", arn, raw) := by
  constructor
  · intro h7
    rcases m with e | raw
    · exact ⟨rfl, rfl⟩
    · have hre : extractSFnRegion arn = .error { message := "Invalid state machine ARN" } := by
        simp [extractSFnRegion, h7]
      simp [exec, hre]
  · intro raw hm h7
    subst hm
    have hre : extractSFnRegion arn = .ok ((splitColons arn).getD 3 "") := by
      simp [extractSFnRegion, h7]
    simp [exec, hre]

/-- C9 witness: a 2-part ARN is rejected with no execution started; a
well-formed 7-part ARN starts an execution in its region component. -/
theorem C9_arn_validation_witness :
    ((exec (.ok "null") "bad:arn" none).started = none
      ∧ (exec (.ok "null") "bad:arn" none).err.isSome = true)
    ∧ (exec (.ok "null") "arn:aws:states:us-east-1:111122223333:stateMachine:m" none).started
      = some ("us-east-1", "arn:aws:states:us-east-1:111122223333:stateMachine:m", "null") :=
  ⟨(C9_arn_validation (.ok "null") "bad:arn" none).1 (by decide),
   by
    have h := (C9_arn_validation (.ok "null")
      "arn:aws:states:us-east-1:111122223333:stateMachine:m" none).2 "null" rfl (by decide)
    simpa using h⟩

end DeepAlert


